import Mathlib

/-
Verification development for the readiness wait-set of `rclrs` (ros2_rust),
embedding `rclrs/src/wait.rs`.

The file `wait.rs` is a thin wrapper around the external `rcl` resource
layer.  The wrapper (struct `WaitSet` with `new`, `clear`,
`add_subscription`, `wait` and `Drop`) is embedded directly from the source.
The `rcl` layer itself (the slot arrays and the blocking multiplex
primitive) is not part of the repository: its behaviour is modelled from the
specification and from the contract documented in the doc comments of
`wait.rs` (definitions below carry a `Modelled from the spec:` note).

Conventions of the shallow embedding:
  - a waitable handle is a `Nat`;
  - a slot array is a `List (Option _)` of fixed length (the capacity),
    `none` being the empty marker (NULL);
  - a `Weak<dyn SubscriptionBase>` is an `Option Nat`: `some h` when the
    weak reference upgrades to a live subscription whose locked handle is
    `h`, `none` when the target has been dropped;
  - the `i64` timeout of `rcl_wait` is an `Int` (only its sign matters to
    the semantics, so the embedding is faithful on the whole `i64` range);
  - resource-layer outcomes that depend on the environment are explicit
    inputs: a `Bool` failure injection for allocation / clear / fini
    failures, a readiness oracle `ready : Nat → Bool` giving the readiness
    of each handle at the moment the wait call returns, and an
    `interrupted : Bool` flag for external interruption of a blocking wait;
  - a blocking call that never returns is modelled by an `Option` result:
    `none` means the call blocks forever, `some` means it returns;
  - `to_rcl_result` (decoding the raw rcl integer code into
    `Result<(), RclReturnCode>`) is folded into the model: the modelled rcl
    functions return the decoded `Except RclReturnCode _` directly.
-/

/-- Modelled from the spec: the wait-set error codes of `rclrs_common`
(declared outside this crate) that `wait.rs` uses or that `rcl` can emit for
the wait-set operations. -/
inductive WaitSetErrorCode
  | WaitSetInvalid
  | WaitSetEmpty
  | WaitSetFull
deriving DecidableEq, Repr

/-- Modelled from the spec: the subset of `rclrs_common::error::RclReturnCode`
relevant to the wait-set operations (declared outside this crate). `Error` is
the unspecified resource-layer error of the doc comments. -/
inductive RclReturnCode
  | InvalidArgument
  | Timeout
  | WaitSetError (code : WaitSetErrorCode)
  | Error
deriving DecidableEq, Repr

/-- The error enum of `wait.rs`: either the registered subscription was
dropped, or an rcl return code is surfaced. -/
inductive WaitSetErrorResponse
  | DroppedSubscription
  | ReturnCode (code : RclReturnCode)
deriving DecidableEq, Repr

/-- A populated subscription slot: the resolved waitable handle together with
the auxiliary callback token registered with it (`wait.rs` always passes
NULL, i.e. `none`). -/
structure SubSlot where
  handle : Nat
  callback : Option Nat
deriving DecidableEq, Repr

/-- Modelled from the spec: the state of an `rcl_wait_set_t` (declared
outside this crate).  One fixed-capacity slot array per waitable category;
`allocated` records whether the resource layer holds a live allocation for
this wait set (true between a successful `rcl_wait_set_init` and
`rcl_wait_set_fini`, false for the zero-initialized value). -/
structure RclWaitSet where
  subscriptions : List (Option SubSlot)
  guard_conditions : List (Option Nat)
  timers : List (Option Nat)
  clients : List (Option Nat)
  services : List (Option Nat)
  events : List (Option Nat)
  allocated : Bool
deriving DecidableEq, Repr

/-- Modelled from the spec: `rcl_get_zero_initialized_wait_set` — the
zero/empty state, with no live allocation. -/
def rcl_get_zero_initialized_wait_set : RclWaitSet :=
  { subscriptions := [], guard_conditions := [], timers := [], clients := [],
    services := [], events := [], allocated := false }

/-- Modelled from the spec: `rcl_wait_set_init` reserves exactly the
requested per-category capacities (all slots empty) and produces a live
allocation, or fails with a resource-layer error (`allocOk` injects the
allocation outcome). -/
def rcl_wait_set_init (number_of_subscriptions number_of_guard_conditions
    number_of_timers number_of_clients number_of_services number_of_events : Nat)
    (allocOk : Bool) : Except RclReturnCode RclWaitSet :=
  if allocOk then
    .ok { subscriptions := List.replicate number_of_subscriptions none,
          guard_conditions := List.replicate number_of_guard_conditions none,
          timers := List.replicate number_of_timers none,
          clients := List.replicate number_of_clients none,
          services := List.replicate number_of_services none,
          events := List.replicate number_of_events none,
          allocated := true }
  else .error .Error

/-- Sets every entry of a slot array to the empty marker, keeping the
capacity. -/
def clearArray {α : Type} (xs : List (Option α)) : List (Option α) :=
  xs.map (fun _ => none)

/-- Modelled from the spec: `rcl_wait_set_clear` removes (sets to NULL) all
entities while keeping the allocation live; it fails with `WaitSetInvalid`
on a zero-initialized wait set and `fail` injects the unspecified
resource-layer error of the doc comment. -/
def rcl_wait_set_clear (ws : RclWaitSet) (fail : Bool) :
    Except RclReturnCode RclWaitSet :=
  if ws.allocated = false then .error (.WaitSetError .WaitSetInvalid)
  else if fail then .error .Error
  else .ok { ws with
    subscriptions := clearArray ws.subscriptions,
    guard_conditions := clearArray ws.guard_conditions,
    timers := clearArray ws.timers,
    clients := clearArray ws.clients,
    services := clearArray ws.services,
    events := clearArray ws.events }

/-- Index of the first empty slot of a slot array, if any. -/
def firstFreeIdx {α : Type} : List (Option α) → Option Nat
  | [] => none
  | none :: _ => some 0
  | some _ :: rest => (firstFreeIdx rest).map (· + 1)

/-- Modelled from the spec: `rcl_wait_set_add_subscription` inserts the
handle (with its auxiliary callback token) into the next free subscription
slot; it fails with `WaitSetInvalid` on a zero-initialized wait set and with
`WaitSetFull` when the subscription array has no free slot. -/
def rcl_wait_set_add_subscription (ws : RclWaitSet) (handle : Nat)
    (callback : Option Nat) : Except RclReturnCode RclWaitSet :=
  if ws.allocated = false then .error (.WaitSetError .WaitSetInvalid)
  else
    match firstFreeIdx ws.subscriptions with
    | none => .error (.WaitSetError .WaitSetFull)
    | some i =>
      .ok { ws with
        subscriptions := ws.subscriptions.set i (some ⟨handle, callback⟩) }

/-- Whether any slot of any category is populated. -/
def hasPopulated (ws : RclWaitSet) : Bool :=
  ws.subscriptions.any Option.isSome || ws.guard_conditions.any Option.isSome ||
  ws.timers.any Option.isSome || ws.clients.any Option.isSome ||
  ws.services.any Option.isSome || ws.events.any Option.isSome

/-- Readiness of a subscription slot under the readiness oracle: an empty
slot is never ready. -/
def subReady (ready : Nat → Bool) : Option SubSlot → Bool
  | some sl => ready sl.handle
  | none => false

/-- Readiness of a generic (non-subscription) slot under the readiness
oracle. -/
def genReady (ready : Nat → Bool) : Option Nat → Bool
  | some h => ready h
  | none => false

/-- Whether any populated slot of any category is ready. -/
def anyReady (ws : RclWaitSet) (ready : Nat → Bool) : Bool :=
  ws.subscriptions.any (subReady ready) || ws.guard_conditions.any (genReady ready) ||
  ws.timers.any (genReady ready) || ws.clients.any (genReady ready) ||
  ws.services.any (genReady ready) || ws.events.any (genReady ready)

/-- In-place update of one subscription slot after a wait returns: a
populated slot whose entity is ready is left populated, a populated slot
whose entity is not ready is reset to the empty marker. -/
def pruneSub (ready : Nat → Bool) : Option SubSlot → Option SubSlot
  | some sl => if ready sl.handle then some sl else none
  | none => none

/-- In-place update of one generic slot after a wait returns (see
`pruneSub`). -/
def pruneGen (ready : Nat → Bool) : Option Nat → Option Nat
  | some h => if ready h then some h else none
  | none => none

/-- The in-place side effect of a returning wait call on the slot arrays:
every slot is pruned by readiness, nothing else changes. -/
def prune (ws : RclWaitSet) (ready : Nat → Bool) : RclWaitSet :=
  { ws with
    subscriptions := ws.subscriptions.map (pruneSub ready),
    guard_conditions := ws.guard_conditions.map (pruneGen ready),
    timers := ws.timers.map (pruneGen ready),
    clients := ws.clients.map (pruneGen ready),
    services := ws.services.map (pruneGen ready),
    events := ws.events.map (pruneGen ready) }

/-- Modelled from the spec: `rcl_wait`.  Fails with `WaitSetInvalid` on a
zero-initialized wait set and with `WaitSetEmpty` when no slot is populated
(state untouched in both cases).  Otherwise the call returns successfully as
soon as some populated slot is ready; with nothing ready, a zero timeout
polls and returns `Timeout` immediately, an interrupted blocking call
surfaces the unspecified error, a positive timeout elapses and returns
`Timeout`, and a negative timeout blocks forever (result `none`).  Every
returning branch past the precondition checks prunes the slot arrays in
place by readiness.  `ready` is the readiness oracle at the moment the call
returns and `interrupted` injects external interruption. -/
def rcl_wait (ws : RclWaitSet) (timeout : Int) (ready : Nat → Bool)
    (interrupted : Bool) : Option (Except RclReturnCode Unit × RclWaitSet) :=
  if ws.allocated = false then
    some (.error (.WaitSetError .WaitSetInvalid), ws)
  else if hasPopulated ws = false then
    some (.error (.WaitSetError .WaitSetEmpty), ws)
  else if anyReady ws ready then some (.ok (), prune ws ready)
  else if timeout = 0 then some (.error .Timeout, prune ws ready)
  else if interrupted then some (.error .Error, prune ws ready)
  else if 0 < timeout then some (.error .Timeout, prune ws ready)
  else none

/-- Modelled from the spec: `rcl_wait_set_fini` releases the underlying
allocation, returning the wait set to the zero state; `fail` injects the
resource-layer release failure of the teardown path. -/
def rcl_wait_set_fini (_ws : RclWaitSet) (fail : Bool) :
    Except RclReturnCode RclWaitSet :=
  if fail then .error .Error else .ok rcl_get_zero_initialized_wait_set

/-- The `WaitSet` struct of `wait.rs`: the `rcl_wait_set_t` it owns plus the
`initialized` flag. -/
structure WaitSet where
  wait_set : RclWaitSet
  initialized : Bool
deriving DecidableEq, Repr

/-- `WaitSet::new`: starts from the zero-initialized wait set with
`initialized = false`, calls `rcl_wait_set_init` with the six per-category
counts; on success the flag is set and the wait set returned, on failure the
rcl code is surfaced (wrapped in `ReturnCode`). -/
def WaitSet.new (number_of_subscriptions number_of_guard_conditions
    number_of_timers number_of_clients number_of_services number_of_events : Nat)
    (allocOk : Bool) : Except WaitSetErrorResponse WaitSet :=
  match rcl_wait_set_init number_of_subscriptions number_of_guard_conditions
      number_of_timers number_of_clients number_of_services number_of_events
      allocOk with
  | .ok rws => .ok { wait_set := rws, initialized := true }
  | .error err => .error (.ReturnCode err)

/-- `WaitSet::clear`: rejects a wait set whose `initialized` flag is unset
with `WaitSetInvalid`; otherwise it marks the wait set uninitialized
(whether or not the rcl clear succeeds — the comment in the source is
explicit about this) and surfaces the result of `rcl_wait_set_clear`. -/
def WaitSet.clear (ws : WaitSet) (fail : Bool) :
    Except WaitSetErrorResponse Unit × WaitSet :=
  if ws.initialized = false then
    (.error (.ReturnCode (.WaitSetError .WaitSetInvalid)), ws)
  else
    match rcl_wait_set_clear ws.wait_set fail with
    | .ok rws => (.ok (), { wait_set := rws, initialized := false })
    | .error err =>
      (.error (.ReturnCode err), { wait_set := ws.wait_set, initialized := false })

/-- `WaitSet::add_subscription`: upgrades the weak reference; if the
subscription is dropped it returns `DroppedSubscription` without touching
the wait set, otherwise it locks the subscription handle and passes it to
`rcl_wait_set_add_subscription` with a NULL callback token, surfacing any
rcl error. -/
def WaitSet.add_subscription (ws : WaitSet) (subscription : Option Nat) :
    Except WaitSetErrorResponse Unit × WaitSet :=
  match subscription with
  | some handle =>
    match rcl_wait_set_add_subscription ws.wait_set handle none with
    | .ok rws => (.ok (), { wait_set := rws, initialized := ws.initialized })
    | .error err => (.error (.ReturnCode err), ws)
  | none => (.error .DroppedSubscription, ws)

/-- `WaitSet::wait`: a direct pass-through to `rcl_wait` on the owned
`rcl_wait_set_t` — no check of the `initialized` flag, and the error type is
`RclReturnCode` (not `WaitSetErrorResponse`).  `none` models the call
blocking forever. -/
def WaitSet.wait (ws : WaitSet) (timeout : Int) (ready : Nat → Bool)
    (interrupted : Bool) : Option (Except RclReturnCode Unit × WaitSet) :=
  (rcl_wait ws.wait_set timeout ready interrupted).map
    (fun r => (r.1, { wait_set := r.2, initialized := ws.initialized }))

/-- Outcome of running the `Drop` impl. -/
inductive DropOutcome
  | completed
  | panicked
deriving DecidableEq, Repr

/-- `<WaitSet as Drop>::drop`: calls `rcl_wait_set_fini` on the owned wait
set; on success it completes silently, on any error it panics. -/
def WaitSet.drop (ws : WaitSet) (finiFail : Bool) : DropOutcome :=
  match rcl_wait_set_fini ws.wait_set finiFail with
  | .ok _ => .completed
  | .error _ => .panicked

/-- Whether every non-subscription slot array is entirely empty. -/
def othersEmpty (ws : RclWaitSet) : Bool :=
  ws.guard_conditions.all Option.isNone && ws.timers.all Option.isNone &&
  ws.clients.all Option.isNone && ws.services.all Option.isNone &&
  ws.events.all Option.isNone

/-- Whether every slot array (subscriptions included) is entirely empty. -/
def allSlotsEmpty (ws : RclWaitSet) : Bool :=
  ws.subscriptions.all Option.isNone && othersEmpty ws

/-- Whether a subscription slot is empty or carries a NULL callback
token. -/
def cbNull : Option SubSlot → Bool
  | some sl => sl.callback.isNone
  | none => true

/-- Whether every populated subscription slot carries a NULL callback
token. -/
def subCallbacksNull (ws : RclWaitSet) : Bool :=
  ws.subscriptions.all cbNull

/-- The `WaitSet` states reachable through the public interface of
`wait.rs`: a successful `new`, followed by any sequence of `clear`,
`add_subscription` and returning `wait` calls (under any resource-layer
outcomes, weak-reference states and readiness oracles). -/
inductive Reachable : WaitSet → Prop
  | new_ok (n₁ n₂ n₃ n₄ n₅ n₆ : Nat) (allocOk : Bool) (ws : WaitSet)
      (h : WaitSet.new n₁ n₂ n₃ n₄ n₅ n₆ allocOk = .ok ws) : Reachable ws
  | clear_step (ws : WaitSet) (fail : Bool) (h : Reachable ws) :
      Reachable (WaitSet.clear ws fail).2
  | add_step (ws : WaitSet) (subscription : Option Nat) (h : Reachable ws) :
      Reachable (WaitSet.add_subscription ws subscription).2
  | wait_step (ws : WaitSet) (timeout : Int) (ready : Nat → Bool)
      (interrupted : Bool) (r : Except RclReturnCode Unit) (ws' : WaitSet)
      (h : Reachable ws)
      (hw : WaitSet.wait ws timeout ready interrupted = some (r, ws')) :
      Reachable ws'

/-- A concrete wait set as produced by a successful
`WaitSet.new 1 0 0 0 0 0`: one empty subscription slot, live allocation,
`initialized` set. -/
def fresh₁ : WaitSet :=
  { wait_set := { subscriptions := [none], guard_conditions := [], timers := [],
                  clients := [], services := [], events := [], allocated := true },
    initialized := true }

/-- A concrete wait set with two subscription slots and one guard-condition
slot, as produced by a successful `WaitSet.new 2 1 0 0 0 0`. -/
def fresh₂ : WaitSet :=
  { wait_set := { subscriptions := [none, none], guard_conditions := [none],
                  timers := [], clients := [], services := [], events := [],
                  allocated := true },
    initialized := true }

section Helpers

theorem clearArray_all_none {α : Type} (xs : List (Option α)) :
    (clearArray xs).all Option.isNone = true := by
  simp [clearArray, List.all_eq_true]

theorem replicate_all_none {α : Type} (n : Nat) :
    (List.replicate n (none : Option α)).all Option.isNone = true := by
  simp [List.all_eq_true, List.eq_of_mem_replicate]

theorem all_set {α : Type} (p : α → Bool) (xs : List α) (i : Nat) (a : α)
    (hx : xs.all p = true) (ha : p a = true) : (xs.set i a).all p = true := by
  rw [List.all_eq_true] at hx ⊢
  intro b hb
  rcases List.mem_or_eq_of_mem_set hb with h | h
  · exact hx b h
  · subst h; exact ha

theorem all_map_of_all {α β : Type} (p : α → Bool) (q : β → Bool) (f : α → β)
    (xs : List α) (h : xs.all p = true)
    (hpq : ∀ a, p a = true → q (f a) = true) : (xs.map f).all q = true := by
  rw [List.all_eq_true] at h ⊢
  intro b hb
  rw [List.mem_map] at hb
  obtain ⟨a, ha, rfl⟩ := hb
  exact hpq a (h a ha)

theorem any_isSome_eq_false {α : Type} (xs : List (Option α))
    (h : xs.all Option.isNone = true) : xs.any Option.isSome = false := by
  induction xs with
  | nil => rfl
  | cons x xs ih =>
    simp only [List.all_cons, Bool.and_eq_true] at h
    cases x with
    | none => simpa [List.any_cons] using ih h.2
    | some a => simp at h

theorem hasPopulated_eq_false (ws : RclWaitSet)
    (h : allSlotsEmpty ws = true) : hasPopulated ws = false := by
  simp only [allSlotsEmpty, othersEmpty, Bool.and_eq_true] at h
  obtain ⟨hs, ⟨⟨⟨hg, ht⟩, hc⟩, hv⟩, he⟩ := h
  simp [hasPopulated, any_isSome_eq_false _ hs, any_isSome_eq_false _ hg,
    any_isSome_eq_false _ ht, any_isSome_eq_false _ hc,
    any_isSome_eq_false _ hv, any_isSome_eq_false _ he]

theorem map_pruneGen_all_none (ready : Nat → Bool) (xs : List (Option Nat))
    (h : xs.any (genReady ready) = false) :
    (xs.map (pruneGen ready)).all Option.isNone = true := by
  induction xs with
  | nil => rfl
  | cons x xs ih =>
    simp only [List.any_cons, Bool.or_eq_false_iff] at h
    have ih2 := ih h.2
    cases x with
    | none => simpa [pruneGen] using ih2
    | some a =>
      have hx : ready a = false := by simpa [genReady] using h.1
      simpa [pruneGen, hx] using ih2

theorem map_pruneSub_all_none (ready : Nat → Bool) (xs : List (Option SubSlot))
    (h : xs.any (subReady ready) = false) :
    (xs.map (pruneSub ready)).all Option.isNone = true := by
  induction xs with
  | nil => rfl
  | cons x xs ih =>
    simp only [List.any_cons, Bool.or_eq_false_iff] at h
    have ih2 := ih h.2
    cases x with
    | none => simpa [pruneSub] using ih2
    | some sl =>
      have hx : ready sl.handle = false := by simpa [subReady] using h.1
      simpa [pruneSub, hx] using ih2

theorem prune_empty_of_not_ready (ws : RclWaitSet) (ready : Nat → Bool)
    (h : anyReady ws ready = false) : allSlotsEmpty (prune ws ready) = true := by
  simp only [anyReady, Bool.or_eq_false_iff] at h
  obtain ⟨⟨⟨⟨⟨hs, hg⟩, ht⟩, hc⟩, hv⟩, he⟩ := h
  simp [allSlotsEmpty, othersEmpty, prune, map_pruneSub_all_none _ _ hs,
    map_pruneGen_all_none _ _ hg, map_pruneGen_all_none _ _ ht,
    map_pruneGen_all_none _ _ hc, map_pruneGen_all_none _ _ hv,
    map_pruneGen_all_none _ _ he]

theorem rcl_clear_ok (ws rws : RclWaitSet) (fail : Bool)
    (h : rcl_wait_set_clear ws fail = .ok rws) :
    ws.allocated = true ∧ fail = false ∧
    rws = { ws with
      subscriptions := clearArray ws.subscriptions,
      guard_conditions := clearArray ws.guard_conditions,
      timers := clearArray ws.timers,
      clients := clearArray ws.clients,
      services := clearArray ws.services,
      events := clearArray ws.events } := by
  unfold rcl_wait_set_clear at h
  split at h
  · cases h
  · split at h
    · cases h
    · rename_i h1 h2
      cases h
      exact ⟨by simpa using h1, by simpa using h2, rfl⟩

theorem rcl_add_ok (ws : RclWaitSet) (handle : Nat) (cb : Option Nat)
    (rws : RclWaitSet) (h : rcl_wait_set_add_subscription ws handle cb = .ok rws) :
    ∃ i, firstFreeIdx ws.subscriptions = some i ∧
      rws = { ws with subscriptions := ws.subscriptions.set i (some ⟨handle, cb⟩) } := by
  unfold rcl_wait_set_add_subscription at h
  split at h
  · cases h
  · split at h
    · cases h
    · rename_i i hi
      cases h
      exact ⟨i, hi, rfl⟩

theorem clear_cases (ws : WaitSet) (fail : Bool) :
    (WaitSet.clear ws fail).2 = ws ∨
    (WaitSet.clear ws fail).2 = { wait_set := ws.wait_set, initialized := false } ∨
    (WaitSet.clear ws fail).2 =
      { wait_set := { ws.wait_set with
          subscriptions := clearArray ws.wait_set.subscriptions,
          guard_conditions := clearArray ws.wait_set.guard_conditions,
          timers := clearArray ws.wait_set.timers,
          clients := clearArray ws.wait_set.clients,
          services := clearArray ws.wait_set.services,
          events := clearArray ws.wait_set.events },
        initialized := false } := by
  unfold WaitSet.clear
  split
  · exact Or.inl rfl
  · rcases he : rcl_wait_set_clear ws.wait_set fail with e | rws
    · simp [he]
    · simp [he]
      obtain ⟨-, -, rfl⟩ := rcl_clear_ok ws.wait_set _ fail he
      simp

theorem add_cases (ws : WaitSet) (subscription : Option Nat) :
    (WaitSet.add_subscription ws subscription).2 = ws ∨
    ∃ handle i, subscription = some handle ∧
      firstFreeIdx ws.wait_set.subscriptions = some i ∧
      (WaitSet.add_subscription ws subscription).2 =
        { wait_set := { ws.wait_set with
            subscriptions := ws.wait_set.subscriptions.set i (some ⟨handle, none⟩) },
          initialized := ws.initialized } := by
  cases subscription with
  | none => exact Or.inl rfl
  | some handle =>
    rcases he : rcl_wait_set_add_subscription ws.wait_set handle none with e | rws
    · left
      simp [WaitSet.add_subscription, he]
    · obtain ⟨i, hi, rfl⟩ := rcl_add_ok ws.wait_set handle none _ he
      refine Or.inr ⟨handle, i, rfl, hi, ?_⟩
      simp [WaitSet.add_subscription, he]

theorem rcl_wait_state (ws : RclWaitSet) (timeout : Int) (ready : Nat → Bool)
    (interrupted : Bool) (r : Except RclReturnCode Unit) (ws' : RclWaitSet)
    (h : rcl_wait ws timeout ready interrupted = some (r, ws')) :
    ws' = ws ∨ ws' = prune ws ready := by
  unfold rcl_wait at h
  split_ifs at h
  all_goals cases h
  all_goals first | exact Or.inl rfl | exact Or.inr rfl

theorem wait_cases (ws : WaitSet) (timeout : Int) (ready : Nat → Bool)
    (interrupted : Bool) (r : Except RclReturnCode Unit) (ws' : WaitSet)
    (hw : WaitSet.wait ws timeout ready interrupted = some (r, ws')) :
    ws' = ws ∨
    ws' = { wait_set := prune ws.wait_set ready, initialized := ws.initialized } := by
  unfold WaitSet.wait at hw
  rcases he : rcl_wait ws.wait_set timeout ready interrupted with - | p
  · rw [he] at hw; cases hw
  · rw [he] at hw
    simp only [Option.map_some'] at hw
    cases hw
    rcases rcl_wait_state ws.wait_set timeout ready interrupted p.1 p.2 (by rw [he]) with h | h
    · left; rw [h]
    · right; rw [h]

theorem rcl_wait_ok_or_timeout (ws : RclWaitSet) (timeout : Int)
    (ready : Nat → Bool) (interrupted : Bool) (r : Except RclReturnCode Unit)
    (ws' : RclWaitSet) (hw : rcl_wait ws timeout ready interrupted = some (r, ws'))
    (hr : r = .ok () ∨ r = .error .Timeout) :
    ws' = prune ws ready ∧ (r = .error .Timeout → anyReady ws ready = false) := by
  unfold rcl_wait at hw
  split_ifs at hw
  all_goals cases hw
  · rcases hr with hr | hr <;> cases hr
  · rcases hr with hr | hr <;> cases hr
  · exact ⟨rfl, fun h => by cases h⟩
  · exact ⟨rfl, fun _ => by simp_all⟩
  · rcases hr with hr | hr <;> cases hr
  · exact ⟨rfl, fun _ => by simp_all⟩

theorem all_of_all_none {α : Type} (p : Option α → Bool) (xs : List (Option α))
    (h : xs.all Option.isNone = true) (hp : p none = true) : xs.all p = true := by
  rw [List.all_eq_true] at h ⊢
  intro a ha
  have h2 := h a ha
  rw [Option.isNone_iff_eq_none] at h2
  rw [h2]; exact hp

theorem pruneGen_none (ready : Nat → Bool) (a : Option Nat)
    (h : a.isNone = true) : (pruneGen ready a).isNone = true := by
  cases a with
  | none => rfl
  | some x => simp at h

theorem cbNull_pruneSub (ready : Nat → Bool) (a : Option SubSlot)
    (h : cbNull a = true) : cbNull (pruneSub ready a) = true := by
  cases a with
  | none => rfl
  | some sl =>
    simp only [pruneSub]
    split
    · exact h
    · rfl

theorem new_ok_state (n₁ n₂ n₃ n₄ n₅ n₆ : Nat) (allocOk : Bool) (ws : WaitSet)
    (h : WaitSet.new n₁ n₂ n₃ n₄ n₅ n₆ allocOk = .ok ws) :
    ws = { wait_set := { subscriptions := List.replicate n₁ none,
                         guard_conditions := List.replicate n₂ none,
                         timers := List.replicate n₃ none,
                         clients := List.replicate n₄ none,
                         services := List.replicate n₅ none,
                         events := List.replicate n₆ none,
                         allocated := true },
           initialized := true } := by
  unfold WaitSet.new rcl_wait_set_init at h
  split_ifs at h
  cases h; rfl

theorem reachable_inv (ws : WaitSet) (h : Reachable ws) :
    othersEmpty ws.wait_set = true ∧ subCallbacksNull ws.wait_set = true ∧
    ws.wait_set.allocated = true := by
  induction h with
  | new_ok n₁ n₂ n₃ n₄ n₅ n₆ allocOk ws h =>
    obtain rfl := new_ok_state _ _ _ _ _ _ _ _ h
    refine ⟨?_, ?_, rfl⟩
    · simp [othersEmpty, replicate_all_none]
    · exact all_of_all_none cbNull _ (replicate_all_none n₁) rfl
  | clear_step ws fail h ih =>
    obtain ⟨ihO, ihC, ihA⟩ := ih
    rcases clear_cases ws fail with hc | hc | hc <;> rw [hc]
    · exact ⟨ihO, ihC, ihA⟩
    · exact ⟨ihO, ihC, ihA⟩
    · refine ⟨?_, ?_, ihA⟩
      · simp [othersEmpty, clearArray_all_none]
      · exact all_of_all_none cbNull _ (clearArray_all_none _) rfl
  | add_step ws subscription h ih =>
    obtain ⟨ihO, ihC, ihA⟩ := ih
    rcases add_cases ws subscription with hc | ⟨handle, i, -, -, hc⟩ <;> rw [hc]
    · exact ⟨ihO, ihC, ihA⟩
    · refine ⟨ihO, ?_, ihA⟩
      exact all_set cbNull _ i _ ihC rfl
  | wait_step ws timeout ready interrupted r ws' h hw ih =>
    obtain ⟨ihO, ihC, ihA⟩ := ih
    rcases wait_cases ws timeout ready interrupted r ws' hw with hc | hc <;> rw [hc]
    · exact ⟨ihO, ihC, ihA⟩
    · refine ⟨?_, ?_, ihA⟩
      · simp only [othersEmpty, prune, Bool.and_eq_true] at ihO ⊢
        obtain ⟨⟨⟨⟨hg, ht⟩, hc2⟩, hv⟩, he⟩ := ihO
        refine ⟨⟨⟨⟨?_, ?_⟩, ?_⟩, ?_⟩, ?_⟩ <;>
          exact all_map_of_all _ _ _ _ (by assumption)
            (fun a ha => pruneGen_none ready a ha)
      · exact all_map_of_all _ _ _ _ ihC (fun a ha => cbNull_pruneSub ready a ha)

theorem clear_ok_result (ws : WaitSet) (hInit : ws.initialized = true)
    (hAlloc : ws.wait_set.allocated = true) :
    (WaitSet.clear ws false).1 = .ok ()
  ∧ allSlotsEmpty (WaitSet.clear ws false).2.wait_set = true
  ∧ (WaitSet.clear ws false).2.wait_set.allocated = true
  ∧ (WaitSet.clear ws false).2.initialized = false := by
  unfold WaitSet.clear rcl_wait_set_clear
  simp [hInit, hAlloc, allSlotsEmpty, othersEmpty, clearArray_all_none]

theorem clear_uninitialized (ws : WaitSet) (fail : Bool)
    (h : ws.initialized = false) :
    WaitSet.clear ws fail =
      (.error (.ReturnCode (.WaitSetError .WaitSetInvalid)), ws) := by
  unfold WaitSet.clear
  simp [h]

theorem wait_on_unallocated (ws : WaitSet) (timeout : Int) (ready : Nat → Bool)
    (interrupted : Bool) (h : ws.wait_set.allocated = false) :
    WaitSet.wait ws timeout ready interrupted =
      some (.error (.WaitSetError .WaitSetInvalid), ws) := by
  simp [WaitSet.wait, rcl_wait, h]

theorem wait_on_empty (ws : WaitSet) (timeout : Int) (ready : Nat → Bool)
    (interrupted : Bool) (hAlloc : ws.wait_set.allocated = true)
    (hEmpty : allSlotsEmpty ws.wait_set = true) :
    WaitSet.wait ws timeout ready interrupted =
      some (.error (.WaitSetError .WaitSetEmpty), ws) := by
  simp [WaitSet.wait, rcl_wait, hAlloc, hasPopulated_eq_false _ hEmpty]

theorem wait_some (ws : WaitSet) (timeout : Int) (ready : Nat → Bool)
    (interrupted : Bool) (r : Except RclReturnCode Unit) (ws' : WaitSet)
    (hw : WaitSet.wait ws timeout ready interrupted = some (r, ws')) :
    rcl_wait ws.wait_set timeout ready interrupted = some (r, ws'.wait_set) ∧
    ws'.initialized = ws.initialized := by
  unfold WaitSet.wait at hw
  rcases he : rcl_wait ws.wait_set timeout ready interrupted with - | p
  · rw [he] at hw; cases hw
  · rw [he] at hw
    simp only [Option.map_some'] at hw
    cases hw
    exact ⟨by simp [he], rfl⟩

end Helpers

/-- C1 (counterexample): on the wait set produced by a successful
`WaitSet.new 1 0 0 0 0 0`, the first `clear` succeeds, but the immediately
following second `clear` does not succeed: it fails with `WaitSetInvalid`
(the NotInitialized error), because the first `clear` reset the
`initialized` flag.  This refutes the claim that a second `clear` right
after a successful one succeeds. -/
theorem clear_not_idempotent_cex :
    WaitSet.new 1 0 0 0 0 0 true = .ok fresh₁
  ∧ (WaitSet.clear fresh₁ false).1 = .ok ()
  ∧ (WaitSet.clear (WaitSet.clear fresh₁ false).2 false).1 =
      .error (.ReturnCode (.WaitSetError .WaitSetInvalid)) :=
  ⟨rfl, rfl, rfl⟩

/-- C1 (amended): for every initialized wait set with a live allocation,
`clear` succeeds and leaves every slot array empty; a second immediate
`clear` — like any `clear` on a never-allocated core — fails with
`WaitSetInvalid` (NotInitialized), because `clear` resets the `initialized`
flag, while leaving the wait-set state unchanged, hence still in the same
empty-slots state. -/
theorem clear_twice_amended (ws : WaitSet) (hInit : ws.initialized = true)
    (hAlloc : ws.wait_set.allocated = true) :
    (WaitSet.clear ws false).1 = .ok ()
  ∧ allSlotsEmpty (WaitSet.clear ws false).2.wait_set = true
  ∧ ∀ fail : Bool,
      (WaitSet.clear (WaitSet.clear ws false).2 fail).1 =
        .error (.ReturnCode (.WaitSetError .WaitSetInvalid))
    ∧ (WaitSet.clear (WaitSet.clear ws false).2 fail).2 =
        (WaitSet.clear ws false).2 := by
  obtain ⟨h1, h2, -, h4⟩ := clear_ok_result ws hInit hAlloc
  refine ⟨h1, h2, fun fail => ?_⟩
  rw [clear_uninitialized (WaitSet.clear ws false).2 fail h4]
  exact ⟨rfl, rfl⟩

/-- C1 (witness): `clear_twice_amended` applied to the concrete wait set
`fresh₁`. -/
theorem clear_twice_amended_witness :
    (WaitSet.clear fresh₁ false).1 = .ok ()
  ∧ (WaitSet.clear (WaitSet.clear fresh₁ false).2 true).1 =
      .error (.ReturnCode (.WaitSetError .WaitSetInvalid)) :=
  ⟨(clear_twice_amended fresh₁ rfl rfl).1,
   ((clear_twice_amended fresh₁ rfl rfl).2.2 true).1⟩

/-- C2 (counterexample): the reachable state obtained by `new 1 0 0 0 0 0`
followed by a successful `clear` has `initialized = false` while the
resource layer still holds a live allocation (only `Drop` releases it), so
the claimed equivalence of `initialized` and liveness fails on this
reachable state. -/
theorem initialized_iff_live_cex :
    Reachable (WaitSet.clear fresh₁ false).2
  ∧ (WaitSet.clear fresh₁ false).2.initialized = false
  ∧ (WaitSet.clear fresh₁ false).2.wait_set.allocated = true
  ∧ ¬((WaitSet.clear fresh₁ false).2.initialized = true ↔
      (WaitSet.clear fresh₁ false).2.wait_set.allocated = true) := by
  refine ⟨Reachable.clear_step fresh₁ false
      (Reachable.new_ok 1 0 0 0 0 0 true fresh₁ rfl), rfl, rfl, fun hiff => ?_⟩
  exact Bool.noConfusion (show false = true from hiff.mpr rfl)

/-- C2 (amended): in every reachable state the direction from the flag to
liveness holds — `initialized = true` implies a live allocation — and in
fact the allocation of a reachable wait set is always live (it is only
released by `Drop`); the converse direction is what fails, since `clear`
resets `initialized` without releasing the allocation. -/
theorem initialized_implies_live (ws : WaitSet) (h : Reachable ws) :
    ws.wait_set.allocated = true ∧
    (ws.initialized = true → ws.wait_set.allocated = true) :=
  ⟨(reachable_inv ws h).2.2, fun _ => (reachable_inv ws h).2.2⟩

/-- C2 (witness): `initialized_implies_live` applied to the concrete
reachable state `fresh₂`. -/
theorem initialized_implies_live_witness :
    fresh₂.wait_set.allocated = true ∧
    (fresh₂.initialized = true → fresh₂.wait_set.allocated = true) :=
  initialized_implies_live fresh₂ (Reachable.new_ok 2 1 0 0 0 0 true fresh₂ rfl)

/-- C3: `wait` on a wait set whose resource-layer allocation is not live
(zero-initialized) returns `WaitSetInvalid` (NotInitialized) without
blocking; `wait` on an allocated wait set whose slot arrays hold no
populated slot returns `WaitSetEmpty` without blocking — in particular on
the state produced by any successful `new` with no fill — and all of this
for every timeout value, readiness and interruption state. -/
theorem wait_uninit_and_empty_errors (ws : WaitSet) (timeout : Int)
    (ready : Nat → Bool) (interrupted : Bool) :
    (ws.wait_set.allocated = false →
      WaitSet.wait ws timeout ready interrupted =
        some (.error (.WaitSetError .WaitSetInvalid), ws))
  ∧ (ws.wait_set.allocated = true → allSlotsEmpty ws.wait_set = true →
      WaitSet.wait ws timeout ready interrupted =
        some (.error (.WaitSetError .WaitSetEmpty), ws))
  ∧ (∀ n₁ n₂ n₃ n₄ n₅ n₆ : Nat, ∀ allocOk : Bool,
      WaitSet.new n₁ n₂ n₃ n₄ n₅ n₆ allocOk = .ok ws →
      WaitSet.wait ws timeout ready interrupted =
        some (.error (.WaitSetError .WaitSetEmpty), ws)) := by
  refine ⟨fun h => wait_on_unallocated ws timeout ready interrupted h,
    fun hA hE => wait_on_empty ws timeout ready interrupted hA hE,
    fun n₁ n₂ n₃ n₄ n₅ n₆ allocOk h => ?_⟩
  obtain rfl := new_ok_state _ _ _ _ _ _ _ _ h
  refine wait_on_empty _ timeout ready interrupted rfl ?_
  simp [allSlotsEmpty, othersEmpty, replicate_all_none]

/-- C3 (witness): `wait_uninit_and_empty_errors` applied to the
zero-initialized state (giving `WaitSetInvalid`) and to the freshly
allocated state `fresh₂` (giving `WaitSetEmpty`), at a concrete timeout. -/
theorem wait_uninit_and_empty_errors_witness :
    (WaitSet.wait { wait_set := rcl_get_zero_initialized_wait_set,
                    initialized := false } 5 (fun _ => false) false =
      some (.error (.WaitSetError .WaitSetInvalid),
        { wait_set := rcl_get_zero_initialized_wait_set, initialized := false }))
  ∧ (WaitSet.wait fresh₂ (-1) (fun _ => false) false =
      some (.error (.WaitSetError .WaitSetEmpty), fresh₂)) :=
  ⟨(wait_uninit_and_empty_errors _ 5 (fun _ => false) false).1 rfl,
   (wait_uninit_and_empty_errors fresh₂ (-1) (fun _ => false) false).2.1 rfl rfl⟩

/-- C4: registering a dropped subscription yields `DroppedSubscription` and
leaves the whole wait-set state (in particular every slot array) unchanged;
registering a live subscription inserts the resolved handle (with a NULL
callback token) into the first free subscription slot when one exists, and
otherwise surfaces the underlying resource-layer error (`WaitSetFull` when
the array is full, `WaitSetInvalid` on a zero-initialized wait set),
leaving the state unchanged. -/
theorem add_subscription_spec (ws : WaitSet) (handle : Nat) :
    (WaitSet.add_subscription ws none = (.error .DroppedSubscription, ws))
  ∧ (ws.wait_set.allocated = true →
      ∀ i, firstFreeIdx ws.wait_set.subscriptions = some i →
        WaitSet.add_subscription ws (some handle) =
          (.ok (),
            { wait_set :=
                { ws.wait_set with
                    subscriptions := ws.wait_set.subscriptions.set i
                      (some ⟨handle, none⟩) },
              initialized := ws.initialized }))
  ∧ (ws.wait_set.allocated = true →
      firstFreeIdx ws.wait_set.subscriptions = none →
      WaitSet.add_subscription ws (some handle) =
        (.error (.ReturnCode (.WaitSetError .WaitSetFull)), ws))
  ∧ (ws.wait_set.allocated = false →
      WaitSet.add_subscription ws (some handle) =
        (.error (.ReturnCode (.WaitSetError .WaitSetInvalid)), ws)) := by
  refine ⟨rfl, fun hA i hi => ?_, fun hA hi => ?_, fun hA => ?_⟩
  · simp [WaitSet.add_subscription, rcl_wait_set_add_subscription, hA, hi]
  · simp [WaitSet.add_subscription, rcl_wait_set_add_subscription, hA, hi]
  · simp [WaitSet.add_subscription, rcl_wait_set_add_subscription, hA]

/-- C4 (witness): `add_subscription_spec` on the concrete state `fresh₁`:
a dropped reference is rejected without mutation, and a live reference with
handle 7 lands in slot 0. -/
theorem add_subscription_spec_witness :
    (WaitSet.add_subscription fresh₁ none = (.error .DroppedSubscription, fresh₁))
  ∧ (WaitSet.add_subscription fresh₁ (some 7) =
      (.ok (),
        { wait_set :=
            { fresh₁.wait_set with
                subscriptions := fresh₁.wait_set.subscriptions.set 0
                  (some ⟨7, none⟩) },
          initialized := fresh₁.initialized })) :=
  ⟨(add_subscription_spec fresh₁ 7).1,
   (add_subscription_spec fresh₁ 7).2.1 rfl 0 rfl⟩

/-- C5: for every initialized wait set, whatever the outcome of the
resource-layer clear call (success or injected failure), after `clear`
returns the `initialized` flag is false, forcing a fresh fill cycle. -/
theorem clear_resets_fill_state (ws : WaitSet) (fail : Bool)
    (h : ws.initialized = true) :
    (WaitSet.clear ws fail).2.initialized = false := by
  rcases he : rcl_wait_set_clear ws.wait_set fail with e | rws <;>
    simp [WaitSet.clear, h, he]

/-- C5 (witness): `clear_resets_fill_state` on `fresh₁`, both for a
successful resource-layer clear and for an injected clear failure. -/
theorem clear_resets_fill_state_witness :
    (WaitSet.clear fresh₁ false).2.initialized = false
  ∧ (WaitSet.clear fresh₁ true).2.initialized = false :=
  ⟨clear_resets_fill_state fresh₁ false rfl,
   clear_resets_fill_state fresh₁ true rfl⟩

/-- The wait set `fresh₁` after registering a live subscription with handle
7: one populated subscription slot with a NULL callback token. -/
def filled₁ : WaitSet := (WaitSet.add_subscription fresh₁ (some 7)).2

/-- C6: timeout semantics of `wait` on an allocated wait set with at least
one populated slot: a negative timeout blocks (no return) exactly while
nothing is ready and no interruption occurs, and the call returns with
success as soon as some populated slot is ready; a zero timeout always
returns immediately (pure poll, never blocks); a positive timeout with
nothing becoming ready and no interruption returns `Timeout`. -/
theorem wait_timeout_semantics (ws : WaitSet) (timeout : Int)
    (ready : Nat → Bool) (interrupted : Bool)
    (hAlloc : ws.wait_set.allocated = true)
    (hPop : hasPopulated ws.wait_set = true) :
    (timeout < 0 → anyReady ws.wait_set ready = false → interrupted = false →
      WaitSet.wait ws timeout ready interrupted = none)
  ∧ (anyReady ws.wait_set ready = true →
      ∃ ws', WaitSet.wait ws timeout ready interrupted = some (.ok (), ws'))
  ∧ (timeout = 0 → (WaitSet.wait ws timeout ready interrupted).isSome = true)
  ∧ (0 < timeout → anyReady ws.wait_set ready = false → interrupted = false →
      ∃ ws', WaitSet.wait ws timeout ready interrupted =
        some (.error .Timeout, ws')) := by
  refine ⟨fun ht hr hi => ?_, fun hr => ?_, fun ht => ?_, fun ht hr hi => ?_⟩
  · have h0 : ¬(timeout = 0) := by omega
    have h1 : ¬(0 < timeout) := by omega
    simp [WaitSet.wait, rcl_wait, hAlloc, hPop, hr, hi, h0, h1]
  · exact ⟨{ wait_set := prune ws.wait_set ready,
             initialized := ws.initialized },
      by simp [WaitSet.wait, rcl_wait, hAlloc, hPop, hr]⟩
  · subst ht
    by_cases hr : anyReady ws.wait_set ready = true
    · simp [WaitSet.wait, rcl_wait, hAlloc, hPop, hr]
    · simp [WaitSet.wait, rcl_wait, hAlloc, hPop, hr]
  · have h0 : ¬(timeout = 0) := by omega
    exact ⟨{ wait_set := prune ws.wait_set ready,
             initialized := ws.initialized },
      by simp [WaitSet.wait, rcl_wait, hAlloc, hPop, hr, hi, h0, ht]⟩

/-- C6 (witness): `wait_timeout_semantics` on the concrete filled wait set:
a negative timeout with nothing ready blocks, a zero timeout with a ready
entity returns success, a positive timeout with nothing ready returns
`Timeout`. -/
theorem wait_timeout_semantics_witness :
    (WaitSet.wait filled₁ (-1) (fun _ => false) false = none)
  ∧ (∃ ws', WaitSet.wait filled₁ 0 (fun _ => true) false = some (.ok (), ws'))
  ∧ (∃ ws', WaitSet.wait filled₁ 50 (fun _ => false) false =
      some (.error .Timeout, ws')) :=
  ⟨(wait_timeout_semantics filled₁ (-1) (fun _ => false) false rfl rfl).1
      (by decide) rfl rfl,
   (wait_timeout_semantics filled₁ 0 (fun _ => true) false rfl rfl).2.1 rfl,
   (wait_timeout_semantics filled₁ 50 (fun _ => false) false rfl rfl).2.2.2
      (by decide) rfl rfl⟩

/-- C7: for every wait call that returns with success or `Timeout`, every
slot array is updated in place by readiness — a populated slot whose entity
became ready stays populated, a populated slot whose entity did not become
ready is reset to the empty marker, empty slots stay empty, and lengths,
positions and the allocation flag are otherwise unchanged — and after a
`Timeout` every slot of every category reads as empty. -/
theorem wait_frame_effect (ws : WaitSet) (timeout : Int) (ready : Nat → Bool)
    (interrupted : Bool) (r : Except RclReturnCode Unit) (ws' : WaitSet)
    (hw : WaitSet.wait ws timeout ready interrupted = some (r, ws'))
    (hr : r = .ok () ∨ r = .error .Timeout) :
    ws'.wait_set.subscriptions = ws.wait_set.subscriptions.map (pruneSub ready)
  ∧ ws'.wait_set.guard_conditions =
      ws.wait_set.guard_conditions.map (pruneGen ready)
  ∧ ws'.wait_set.timers = ws.wait_set.timers.map (pruneGen ready)
  ∧ ws'.wait_set.clients = ws.wait_set.clients.map (pruneGen ready)
  ∧ ws'.wait_set.services = ws.wait_set.services.map (pruneGen ready)
  ∧ ws'.wait_set.events = ws.wait_set.events.map (pruneGen ready)
  ∧ ws'.wait_set.allocated = ws.wait_set.allocated
  ∧ (∀ i : Nat, ws'.wait_set.subscriptions[i]? =
      (ws.wait_set.subscriptions[i]?).map (pruneSub ready))
  ∧ (r = .error .Timeout → allSlotsEmpty ws'.wait_set = true) := by
  obtain ⟨hrcl, -⟩ := wait_some ws timeout ready interrupted r ws' hw
  obtain ⟨hps, htm⟩ := rcl_wait_ok_or_timeout ws.wait_set timeout ready
    interrupted r ws'.wait_set hrcl hr
  rw [hps]
  refine ⟨rfl, rfl, rfl, rfl, rfl, rfl, rfl, fun i => ?_, fun htime => ?_⟩
  · simp [prune, List.getElem?_map]
  · exact prune_empty_of_not_ready ws.wait_set ready (htm htime)

/-- C7 (witness): `wait_frame_effect` on the concrete filled wait set with
a positive timeout and nothing ready: the call returns `Timeout` and the
previously-filled subscription slot reads as empty. -/
theorem wait_frame_effect_witness :
    (WaitSet.wait filled₁ 50 (fun _ => false) false =
      some (.error .Timeout, fresh₁))
  ∧ allSlotsEmpty fresh₁.wait_set = true :=
  ⟨rfl,
   (wait_frame_effect filled₁ 50 (fun _ => false) false (.error .Timeout)
      fresh₁ rfl (Or.inr rfl)).2.2.2.2.2.2.2.2 rfl⟩

/-- C8: `Drop` aborts (panics) exactly when releasing the underlying
allocation fails: a failing `rcl_wait_set_fini` makes the teardown panic
rather than being silently swallowed, and a successful release completes
the teardown without error. -/
theorem drop_aborts_on_release_failure (ws : WaitSet) (finiFail : Bool) :
    WaitSet.drop ws finiFail =
      (if finiFail then .panicked else .completed) := by
  cases finiFail <;> rfl

/-- C9: `wait` performs no precondition check in this layer: its outcome is
exactly the underlying `rcl_wait` outcome mapped into the wrapper state; it
does not depend on the `initialized` flag; a `wait` issued right after a
successful `clear` (which sets `initialized = false`) is not rejected with
the NotInitialized error — it yields `WaitSetEmpty` from the resource
layer; and a returned error is always an `RclReturnCode`, never the
`DroppedSubscription` response. -/
theorem wait_is_passthrough (rws : RclWaitSet) (b b' : Bool) (timeout : Int)
    (ready : Nat → Bool) (interrupted : Bool) :
    (WaitSet.wait { wait_set := rws, initialized := b } timeout ready
        interrupted =
      (rcl_wait rws timeout ready interrupted).map
        (fun p => (p.1, { wait_set := p.2, initialized := b })))
  ∧ ((WaitSet.wait { wait_set := rws, initialized := b } timeout ready
        interrupted).map (fun p => p.1) =
     (WaitSet.wait { wait_set := rws, initialized := b' } timeout ready
        interrupted).map (fun p => p.1))
  ∧ (∀ ws : WaitSet, ws.initialized = true → ws.wait_set.allocated = true →
      WaitSet.wait (WaitSet.clear ws false).2 timeout ready interrupted =
        some (.error (.WaitSetError .WaitSetEmpty), (WaitSet.clear ws false).2))
  ∧ (∀ (r : Except RclReturnCode Unit) (ws' : WaitSet),
      WaitSet.wait { wait_set := rws, initialized := b } timeout ready
          interrupted = some (r, ws') →
      ∀ e, r = .error e →
        WaitSetErrorResponse.ReturnCode e ≠ .DroppedSubscription) := by
  refine ⟨rfl, ?_, fun ws hInit hAlloc => ?_,
    fun _r _ws _hw _e _hre hcon => ?_⟩
  · rcases he : rcl_wait rws timeout ready interrupted with - | p <;>
      simp [WaitSet.wait, he]
  · obtain ⟨-, hEmpty, hAlloc2, -⟩ := clear_ok_result ws hInit hAlloc
    exact wait_on_empty _ timeout ready interrupted hAlloc2 hEmpty
  · cases hcon

/-- C9 (witness): `wait_is_passthrough` applied after a concrete `clear` of
`fresh₂`: the following `wait` yields `WaitSetEmpty`, not the
NotInitialized error. -/
theorem wait_is_passthrough_witness :
    WaitSet.wait (WaitSet.clear fresh₂ false).2 7 (fun _ => false) false =
      some (.error (.WaitSetError .WaitSetEmpty),
        (WaitSet.clear fresh₂ false).2) :=
  (wait_is_passthrough fresh₂.wait_set true true 7 (fun _ => false)
    false).2.2.1 fresh₂ rfl rfl

/-- C10: in every reachable state only the subscription slot array can be
populated — every guard-condition, timer, client, service and event slot is
empty, registration existing solely for the subscription category — and
every populated subscription slot carries a NULL callback token, since
`add_subscription` always passes a null callback. -/
theorem only_subscription_slots_used (ws : WaitSet) (h : Reachable ws) :
    othersEmpty ws.wait_set = true ∧ subCallbacksNull ws.wait_set = true :=
  ⟨(reachable_inv ws h).1, (reachable_inv ws h).2.1⟩

/-- C10 (witness): `only_subscription_slots_used` on the concrete reachable
state produced by `new 2 1 0 0 0 0` followed by registering handle 7. -/
theorem only_subscription_slots_used_witness :
    othersEmpty (WaitSet.add_subscription fresh₂ (some 7)).2.wait_set = true ∧
    subCallbacksNull (WaitSet.add_subscription fresh₂ (some 7)).2.wait_set =
      true :=
  only_subscription_slots_used _
    (Reachable.add_step fresh₂ (some 7)
      (Reachable.new_ok 2 1 0 0 0 0 true fresh₂ rfl))
